import Mathlib

/-!
Verification of the presentation-state media resource cache implemented in
`apps/kiosk-frontend/src/components/TayyibPanel.tsx` together with the asset
catalog in `apps/kiosk-frontend/src/tayyib/loops.ts`.

The embedding models:
  * the static catalog (`TAYYIB_STATES`, `TAYYIB_ASSETS`, `buildAssetUrl`);
  * one cached `<video>` element per state (`Video`), with the dataset
    fields the component uses (`candidateIndex`, `candidateCount`,
    `exhausted`) plus the platform-managed fields the logic reads
    (`readyState`, `paused`, DOM parent);
  * the fallback loader (`loadCandidate`, `tryNextCandidate`);
  * the global pool (`getOrCreateVideo`, `preloadAll`) and per-panel attach
    logic (`attachVideo`), with panels, subscriptions and `onError`
    invocations made explicit in a `World` record;
  * the platform event deliveries (`fireError`, `fireLoaded`), which run the
    listeners the component registers, in registration order.

Machine integers do not occur; JS numbers used here are small non-negative
indices/counters, modelled as `Nat`.  `import.meta.env.VITE_TAYYIB_BASE_PATH`
is an external configuration value, modelled as an `Option String` parameter
(`none` = unset).
-/

/-! ## Asset catalog (`tayyib/loops.ts`) -/

/-- Source `TAYYIB_STATES` from `loops.ts`: the fixed list of presentation states. -/
def TAYYIB_STATES : List String :=
  ["home_hero", "intro_wave", "idle", "listening", "searching",
   "explaining_a", "explaining_b", "pose_a", "pose_b"]

/-- Source `DEFAULT_TAYYIB_BASE_PATH` from `loops.ts`. -/
def DEFAULT_TAYYIB_BASE_PATH : String := "/assets/tayyib_loops/"

/-- Source `TAYYIB_ASSETS` from `loops.ts`.  The TypeScript record is indexed at
runtime by an arbitrary state string (`TAYYIB_ASSETS[state] ?? []` in
`getCandidates`), so it is modelled as a lookup returning `none` for
unregistered keys. -/
def TAYYIB_ASSETS (state : String) : Option (List String) :=
  if state = "home_hero" then
    some ["home_hero.webm", "home_hero.mp4", "attract.webm", "attract.mp4"]
  else if state = "intro_wave" then
    some ["attract.webm", "attract.mp4"]
  else if state = "idle" then
    some ["idle.webm", "idle.mp4", "Idle.mp4"]
  else if state = "listening" then
    some ["idle.webm", "idle.mp4", "Idle.mp4"]
  else if state = "searching" then
    some ["idle.webm", "idle.mp4", "Idle.mp4"]
  else if state = "explaining_a" then
    some ["idle.webm", "idle.mp4", "Idle.mp4"]
  else if state = "explaining_b" then
    some ["idle.webm", "idle.mp4", "Idle.mp4"]
  else if state = "pose_a" then
    some ["idle.webm", "idle.mp4", "Idle.mp4"]
  else if state = "pose_b" then
    some ["idle.webm", "idle.mp4", "Idle.mp4"]
  else none

/-- Source `getTayyibBasePath` from `loops.ts`.  `env` models
`import.meta.env.VITE_TAYYIB_BASE_PATH`; the JS guard `!fromEnv ||
fromEnv.trim().length === 0` is falsy for `undefined` and for every string
whose trim is empty (`""` included). -/
def getTayyibBasePath (env : Option String) : String :=
  match env with
  | none => DEFAULT_TAYYIB_BASE_PATH
  | some fromEnv =>
      if fromEnv.trim.length = 0 then DEFAULT_TAYYIB_BASE_PATH
      else if fromEnv.endsWith "/" then fromEnv
      else fromEnv ++ "/"

/-- Source `buildAssetUrl` from `loops.ts`. -/
def buildAssetUrl (env : Option String) (filename : String) : String :=
  getTayyibBasePath env ++ filename

/-! ## Candidate resolution (`TayyibPanel.tsx`, `getCandidates`) -/

/-- The loop body of `getCandidates`: walk `raw`, skipping falsy names
(`!name` is true exactly for `""` on strings) and names already in `seen`,
keeping the first occurrence of each remaining name. -/
def dedupFilter : List String → List String → List String
  | [], _ => []
  | name :: rest, seen =>
      if name = "" ∨ seen.contains name then dedupFilter rest seen
      else name :: dedupFilter rest (name :: seen)

/-- Source `getCandidates` from `TayyibPanel.tsx`:
`raw = TAYYIB_ASSETS[state] ?? []`, then the dedup/falsy filter. -/
def getCandidates (state : String) : List String :=
  dedupFilter ((TAYYIB_ASSETS state).getD []) []

/-- Spec-side definition, for the refinement claim about `getCandidates`:
"the catalog's list in order with duplicates removed keeping the first
occurrence of each identifier", written from the spec's words. -/
def specDedupAux : List String → List String → List String
  | [], _ => []
  | name :: rest, seen =>
      if seen.contains name then specDedupAux rest seen
      else name :: specDedupAux rest (name :: seen)

/-- Spec-side entry point: dedup the whole list, keeping first occurrences. -/
def specDedupFirst (l : List String) : List String := specDedupAux l []

/-! ## The cached video element -/

/-- The per-state `<video>` element, restricted to the fields the component
sets or reads.  `candidateIndex`, `candidateCount` and `exhausted` model the
`dataset` entries (`dataset.candidateIndex` is written with `String(idx)` and
read back with `Number(...)`, so it is a `Nat` here; `dataset.exhausted` is
`"1"` iff `exhausted = true`).  `readyState` and `paused` are the
platform-managed playback fields the component reads and drives via
`play()` / `pause()`.  `parent` is the DOM parent container (a container id),
set by `appendChild` and cleared by `container.innerHTML = ""`.  `loadCount`
counts `vid.load()` invocations (instrumentation for "no further candidate
loads", mirroring the construction counter the spec's test plan uses). -/
structure Video where
  autoplay : Bool
  loop : Bool
  muted : Bool
  playsInline : Bool
  preload : String
  width : String
  height : String
  objectFit : String
  objectPosition : String
  transformOrigin : String
  transform : String
  src : String
  candidateIndex : Nat
  candidateCount : Nat
  exhausted : Bool
  readyState : Nat
  paused : Bool
  parent : Option Nat
  loadCount : Nat
deriving Repr, DecidableEq

/-- A freshly created element, as configured in `getOrCreateVideo` before the
first `loadCandidate` call: `document.createElement("video")` defaults
(`paused`, `readyState 0`, no parent, unset dataset) followed by the property
and style assignments of lines 56-63. -/
def freshVideo : Video :=
  { autoplay := false, loop := true, muted := true, playsInline := true
    preload := "auto", width := "100%", height := "100%"
    objectFit := "cover", objectPosition := "", transformOrigin := ""
    transform := "", src := "", candidateIndex := 0, candidateCount := 0
    exhausted := false, readyState := 0, paused := true, parent := none
    loadCount := 0 }

/-- Source `loadCandidate` from `TayyibPanel.tsx`.  The source guard is
`idx < 0 || idx >= candidates.length`; `idx` is a `Nat` here (both call
sites pass `0` or `currentIdx + 1`), so only the upper bound remains.
On success the dataset fields, `src` and a `load()` call are recorded. -/
def loadCandidate (env : Option String) (vid : Video)
    (candidates : List String) (idx : Nat) : Video × Bool :=
  if candidates.length ≤ idx then (vid, false)
  else
    ({ vid with
        candidateIndex := idx
        candidateCount := candidates.length
        exhausted := false
        src := buildAssetUrl env (candidates.getD idx "")
        loadCount := vid.loadCount + 1 }, true)

/-- Source `tryNextCandidate` from `TayyibPanel.tsx`:
`currentIdx = Number(vid.dataset.candidateIndex ?? "0")` (the dataset entry is
always set before the first error event, by the `loadCandidate` call at
creation), `nextIdx = currentIdx + 1`; past the end the element is marked
exhausted, otherwise the next candidate is loaded. -/
def tryNextCandidate (env : Option String) (vid : Video)
    (candidates : List String) : Video × Bool :=
  let nextIdx := vid.candidateIndex + 1
  if candidates.length ≤ nextIdx then
    ({ vid with exhausted := true }, false)
  else loadCandidate env vid candidates nextIdx

/-! ## Handle status and the per-video event machine

The spec's `FallbackLoader` state machine (`Loading(i)` / `Ready` /
`Exhausted`) is an abstraction over the element fields: `Exhausted` is the
dataset flag, `Ready` is the readiness gate the component uses
(`vid.readyState >= 3`), and `Loading(i)` is everything else, at cursor `i`.
-/

/-- The spec's resting states of a handle. -/
inductive HandleStatus where
  | loading : Nat → HandleStatus
  | ready : HandleStatus
  | exhausted : HandleStatus
deriving Repr, DecidableEq

/-- Abstraction from element fields to the spec's state machine. -/
def status (vid : Video) : HandleStatus :=
  if vid.exhausted then HandleStatus.exhausted
  else if 3 ≤ vid.readyState then HandleStatus.ready
  else HandleStatus.loading vid.candidateIndex

/-- The `error` listener installed at creation (`getOrCreateVideo` lines
65-68): advance through the candidates. -/
def videoOnError (env : Option String) (candidates : List String)
    (vid : Video) : Video :=
  (tryNextCandidate env vid candidates).1

/-- Platform delivery of `loadeddata`: enough data is buffered, so
`readyState` reaches the component's threshold (modelled as 4,
`HAVE_ENOUGH_DATA`). -/
def videoOnLoaded (vid : Video) : Video :=
  { vid with readyState := 4 }

/-- Every mutation the component ever applies to a cached element after its
construction: the two platform load events, `pause()` / `play()`, detachment
(`container.innerHTML = ""`), re-parenting (`appendChild`) and the style
assignments of `attachVideo`. -/
inductive VideoOp where
  | errorEvent : VideoOp
  | loadedEvent : VideoOp
  | pauseOp : VideoOp
  | playOp : VideoOp
  | detachOp : VideoOp
  | appendOp : Nat → VideoOp
  | styleOp : String → String → String → VideoOp
deriving Repr, DecidableEq

/-- Apply one operation to an element whose candidate list is `candidates`. -/
def applyOp (env : Option String) (candidates : List String)
    (vid : Video) : VideoOp → Video
  | VideoOp.errorEvent => videoOnError env candidates vid
  | VideoOp.loadedEvent => videoOnLoaded vid
  | VideoOp.pauseOp => { vid with paused := true }
  | VideoOp.playOp => { vid with paused := false }
  | VideoOp.detachOp => { vid with parent := none }
  | VideoOp.appendOp c => { vid with parent := some c }
  | VideoOp.styleOp fit pos tr =>
      { vid with objectFit := fit, objectPosition := pos, transform := tr }

/-- Run a sequence of operations. -/
def runOps (env : Option String) (candidates : List String)
    (vid : Video) : List VideoOp → Video
  | [] => vid
  | op :: rest => runOps env candidates (applyOp env candidates vid op) rest

/-- The element as handed out of `getOrCreateVideo` at construction:
a fresh element after `loadCandidate(vid, candidates, 0)`. -/
def initHandle (env : Option String) (candidates : List String) : Video :=
  (loadCandidate env freshVideo candidates 0).1

/-! ## The global pool, panels and attach logic

`World` collects the module-level mutable state of `TayyibPanel.tsx`
(`videoCache`, `preloaded`), the mounted panel components (each with its
`containerRef`, `activeVideoRef` and `ready` React state), the live
`loadeddata`/`error` subscription pairs `attachVideo` registers, and the
`onError` invocations observed by consumers.  Since the cache never replaces
an entry, a cached element is identified by its state key: reference equality
of elements (`activeVideoRef.current === vid`) coincides with key equality.
`constructions` counts `document.createElement("video")` calls (the
construction counter of the spec's test plan). -/

/-- One mounted `TayyibPanel`: its container div (if mounted),
`activeVideoRef` (state key of the element currently attached by this panel)
and the `ready` React state. -/
structure PanelState where
  container : Option Nat
  activeVideo : Option String
  ready : Bool
deriving Repr, DecidableEq

/-- The module-level state plus mounted panels. -/
structure World where
  cache : List (String × Video)
  preloaded : Bool
  panels : List (Nat × PanelState)
  subs : List (Nat × String)
  errors : List (Nat × String)
  constructions : Nat
deriving Repr, DecidableEq

/-- Association-list lookup (first binding wins), used for `videoCache` and
the panel table. -/
def alookup {α : Type} [DecidableEq α] {β : Type} :
    List (α × β) → α → Option β
  | [], _ => none
  | (k, v) :: rest, key => if k = key then some v else alookup rest key

/-- Update every binding of `key` in an association list. -/
def updAssoc {α : Type} [DecidableEq α] {β : Type}
    (l : List (α × β)) (key : α) (f : β → β) : List (α × β) :=
  l.map (fun kv => if kv.1 = key then (kv.1, f kv.2) else kv)

/-- Model of `container.innerHTML = ""`: every cached element whose DOM parent is
container `c` is detached. -/
def clearContainer (cache : List (String × Video)) (c : Nat) :
    List (String × Video) :=
  cache.map (fun kv =>
    if kv.2.parent = some c then (kv.1, { kv.2 with parent := none }) else kv)

/-- The process-start state: empty cache, `preloaded = false`. -/
def emptyWorld : World :=
  { cache := [], preloaded := false, panels := [], subs := [], errors := []
    constructions := 0 }

/-- Mount a panel component `pid` whose container div is `c`. -/
def withPanel (w : World) (pid c : Nat) : World :=
  { w with panels :=
      w.panels ++ [(pid, { container := some c, activeVideo := none, ready := false })] }

/-- Source `getOrCreateVideo` from `TayyibPanel.tsx`: return the cached element if
present; otherwise, if the candidate list is nonempty, create a fresh
element (with its `error` listener, modelled structurally by `fireError`),
start loading candidate 0 and cache it. -/
def getOrCreateVideo (env : Option String) (w : World) (state : String) :
    World × Option Video :=
  match alookup w.cache state with
  | some vid => (w, some vid)
  | none =>
      let candidates := getCandidates state
      if candidates.isEmpty then (w, none)
      else
        let vid := (loadCandidate env freshVideo candidates 0).1
        ({ w with cache := (state, vid) :: w.cache
                  constructions := w.constructions + 1 }, some vid)

/-- Source `preloadAll` from `TayyibPanel.tsx`: guarded one-shot warmup over
`TAYYIB_STATES`. -/
def preloadAll (env : Option String) (w : World) : World :=
  if w.preloaded then w
  else TAYYIB_STATES.foldl (fun acc s => (getOrCreateVideo env acc s).1)
    { w with preloaded := true }

/-- The `options` of an attach: the component props
`objectPosition` / `objectFit` / `objectScale` with their defaults
(`objectScale` is a small numeric literal, modelled as `Nat`). -/
structure AttachOpts where
  objectPosition : String := "center center"
  objectFit : String := "cover"
  objectScale : Nat := 1
deriving Repr, DecidableEq

/-- The style assignments of `attachVideo` (both branches apply the same
four assignments). -/
def applyOpts (o : AttachOpts) (vid : Video) : Video :=
  { vid with
      objectFit := o.objectFit
      objectPosition := o.objectPosition
      transformOrigin := "50% 10%"
      transform := "scale(" ++ toString o.objectScale ++ ")" }

/-- Source `attachVideo` from `TayyibPanel.tsx`, for panel `pid` and props
`state` / `o`.  Mirrors the source line by line: bail out when the container
ref is null; `getOrCreateVideo`, with `onError` on `null`; the early
restyle-and-play branch when `activeVideoRef.current === vid`; otherwise
pause the previously attached element, clear the container, append, record
`activeVideoRef`, restyle, and then gate on `dataset.exhausted` /
`readyState >= 3`, subscribing to `loadeddata`/`error` when still loading. -/
def attachVideo (env : Option String) (o : AttachOpts) (w : World)
    (pid : Nat) (state : String) : World :=
  match alookup w.panels pid with
  | none => w
  | some p =>
    match p.container with
    | none => w
    | some c =>
      let res := getOrCreateVideo env w state
      let w1 := res.1
      match res.2 with
      | none => { w1 with errors := w1.errors ++ [(pid, state)] }
      | some vid =>
        if p.activeVideo = some state then
          let cache1 := updAssoc w1.cache state
            (fun v => { applyOpts o v with paused := false })
          { w1 with cache := cache1 }
        else
          let w2 :=
            match p.activeVideo with
            | some prev =>
                let cacheP := updAssoc w1.cache prev
                  (fun v => { v with paused := true })
                { w1 with cache := cacheP }
            | none => w1
          let w3 := { w2 with cache := clearContainer w2.cache c }
          let cache4 := updAssoc w3.cache state
            (fun v => applyOpts o { v with parent := some c })
          let w4 := { w3 with cache := cache4 }
          let panels5 := updAssoc w4.panels pid
            (fun q => { q with activeVideo := some state })
          let w5 := { w4 with panels := panels5 }
          if vid.exhausted then
            let panelsE := updAssoc w5.panels pid (fun q => { q with ready := false })
            { w5 with panels := panelsE, errors := w5.errors ++ [(pid, state)] }
          else if 3 ≤ vid.readyState then
            let panelsR := updAssoc w5.panels pid (fun q => { q with ready := true })
            let cacheR := updAssoc w5.cache state (fun v => { v with paused := false })
            { w5 with panels := panelsR, cache := cacheR }
          else
            let panelsL := updAssoc w5.panels pid (fun q => { q with ready := false })
            { w5 with panels := panelsL, subs := w5.subs ++ [(pid, state)] }

/-- Platform delivery of an `error` event on the cached element of `state`.
Listeners run in registration order: first the creation-time listener
(`tryNextCandidate`), then each live panel subscription's `onErr`, which
reads the (just updated) `dataset.exhausted` and, only when exhausted,
resets the panel, removes itself (both listeners of the pair) and invokes
`onError(state)`. -/
def fireError (env : Option String) (w : World) (state : String) : World :=
  match alookup w.cache state with
  | none => w
  | some vid =>
      let vid1 := (tryNextCandidate env vid (getCandidates state)).1
      let w1 := { w with cache := updAssoc w.cache state (fun _ => vid1) }
      if vid1.exhausted then
        let subscribed := w1.subs.filter (fun ps => ps.2 = state)
        let panels1 := subscribed.foldl
          (fun acc ps => updAssoc acc ps.1 (fun q => { q with ready := false }))
          w1.panels
        { w1 with
            panels := panels1
            subs := w1.subs.filter (fun ps => ps.2 ≠ state)
            errors := w1.errors ++ subscribed }
      else w1

/-- Platform delivery of `loadeddata` on the cached element of `state`: the
platform marks enough data buffered (`readyState := 4`); each live panel
subscription's `onLoaded` sets `ready`, calls `play()` and removes itself
(both listeners of the pair). -/
def fireLoaded (w : World) (state : String) : World :=
  match alookup w.cache state with
  | none => w
  | some vid =>
      let subscribed := w.subs.filter (fun ps => ps.2 = state)
      let vid1 := { vid with
        readyState := 4
        paused := if subscribed.isEmpty then vid.paused else false }
      let panels1 := subscribed.foldl
        (fun acc ps => updAssoc acc ps.1 (fun q => { q with ready := true }))
        w.panels
      { w with
          cache := updAssoc w.cache state (fun _ => vid1)
          panels := panels1
          subs := w.subs.filter (fun ps => ps.2 ≠ state) }

/-! ## Association-list helper lemmas -/

theorem alookup_cons_self {α : Type} [DecidableEq α] {β : Type}
    (k : α) (v : β) (l : List (α × β)) : alookup ((k, v) :: l) k = some v := by
  simp [alookup]

theorem alookup_cons_ne {α : Type} [DecidableEq α] {β : Type}
    {k key : α} (v : β) (l : List (α × β)) (h : k ≠ key) :
    alookup ((k, v) :: l) key = alookup l key := by
  simp [alookup, h]

/-! ## The cursor/exhaustion invariant (claim C1) -/

/-- The invariant every cached element maintains: while not exhausted the
cursor is a valid candidate index; once exhausted the cursor rests on the
last candidate (`cursor + 1 = length`), never on `length` itself. -/
def cursorInv (candidates : List String) (vid : Video) : Prop :=
  (vid.exhausted = false ∧ vid.candidateIndex < candidates.length) ∨
  (vid.exhausted = true ∧ vid.candidateIndex + 1 = candidates.length)

theorem cursorInv_init (env : Option String) (candidates : List String)
    (h : candidates ≠ []) : cursorInv candidates (initHandle env candidates) :=
  by
  have hlen : 0 < candidates.length := List.length_pos.mpr h
  left
  constructor
  · simp [initHandle, loadCandidate, Nat.not_le.mpr hlen]
  · simp [initHandle, loadCandidate, Nat.not_le.mpr hlen]
    exact hlen

theorem cursorInv_applyOp (env : Option String) (candidates : List String)
    (vid : Video) (op : VideoOp) (h : cursorInv candidates vid) :
    cursorInv candidates (applyOp env candidates vid op) := by
  cases op with
  | errorEvent =>
      rcases h with ⟨hx, hi⟩ | ⟨hx, hi⟩
      · by_cases hn : candidates.length ≤ vid.candidateIndex + 1
        · right
          constructor
          · simp [applyOp, videoOnError, tryNextCandidate, hn]
          · simp [applyOp, videoOnError, tryNextCandidate, hn]
            omega
        · left
          constructor
          · simp [applyOp, videoOnError, tryNextCandidate, loadCandidate, hn]
          · simp [applyOp, videoOnError, tryNextCandidate, loadCandidate, hn]
            omega
      · have hn : candidates.length ≤ vid.candidateIndex + 1 := by omega
        right
        constructor
        · simp [applyOp, videoOnError, tryNextCandidate, hn]
        · simp [applyOp, videoOnError, tryNextCandidate, hn]
          omega
  | loadedEvent => rcases h with ⟨hx, hi⟩ | ⟨hx, hi⟩
                   · exact Or.inl ⟨hx, hi⟩
                   · exact Or.inr ⟨hx, hi⟩
  | pauseOp => rcases h with ⟨hx, hi⟩ | ⟨hx, hi⟩
               · exact Or.inl ⟨hx, hi⟩
               · exact Or.inr ⟨hx, hi⟩
  | playOp => rcases h with ⟨hx, hi⟩ | ⟨hx, hi⟩
              · exact Or.inl ⟨hx, hi⟩
              · exact Or.inr ⟨hx, hi⟩
  | detachOp => rcases h with ⟨hx, hi⟩ | ⟨hx, hi⟩
                · exact Or.inl ⟨hx, hi⟩
                · exact Or.inr ⟨hx, hi⟩
  | appendOp c => rcases h with ⟨hx, hi⟩ | ⟨hx, hi⟩
                  · exact Or.inl ⟨hx, hi⟩
                  · exact Or.inr ⟨hx, hi⟩
  | styleOp fit pos tr => rcases h with ⟨hx, hi⟩ | ⟨hx, hi⟩
                          · exact Or.inl ⟨hx, hi⟩
                          · exact Or.inr ⟨hx, hi⟩

theorem cursorInv_runOps (env : Option String) (candidates : List String)
    (vid : Video) (ops : List VideoOp) (h : cursorInv candidates vid) :
    cursorInv candidates (runOps env candidates vid ops) := by
  induction ops generalizing vid with
  | nil => exact h
  | cons op rest ih =>
      exact ih _ (cursorInv_applyOp env candidates vid op h)

theorem exhausted_applyOp (env : Option String) (candidates : List String)
    (vid : Video) (op : VideoOp) (hinv : cursorInv candidates vid)
    (hx : vid.exhausted = true) :
    (applyOp env candidates vid op).exhausted = true := by
  cases op with
  | errorEvent =>
      rcases hinv with ⟨hx2, _⟩ | ⟨_, hi⟩
      · rw [hx] at hx2; cases hx2
      · have hn : candidates.length ≤ vid.candidateIndex + 1 := by omega
        simp [applyOp, videoOnError, tryNextCandidate, hn]
  | loadedEvent => exact hx
  | pauseOp => exact hx
  | playOp => exact hx
  | detachOp => exact hx
  | appendOp c => exact hx
  | styleOp fit pos tr => exact hx

theorem exhausted_runOps (env : Option String) (candidates : List String)
    (vid : Video) (ops : List VideoOp) (hinv : cursorInv candidates vid)
    (hx : vid.exhausted = true) :
    (runOps env candidates vid ops).exhausted = true := by
  induction ops generalizing vid with
  | nil => exact hx
  | cons op rest ih =>
      exact ih _ (cursorInv_applyOp env candidates vid op hinv)
        (exhausted_applyOp env candidates vid op hinv hx)

/-- C1 (amended): for every cached element (created by `getOrCreateVideo`
with a nonempty candidate list and subjected to any sequence of the
operations the component performs), the exhaustion flag being set implies
the cursor rests at `length - 1` (it never equals the candidate-list
length), and the flag is terminal: no subsequent operation clears it. -/
theorem exhaustion_cursor_terminal (env : Option String)
    (candidates : List String) (h : candidates ≠ []) (ops : List VideoOp) :
    ((runOps env candidates (initHandle env candidates) ops).exhausted = true →
      (runOps env candidates (initHandle env candidates) ops).candidateIndex + 1 =
        candidates.length) ∧
    ((runOps env candidates (initHandle env candidates) ops).exhausted = true →
      ∀ more : List VideoOp,
        (runOps env candidates
          (runOps env candidates (initHandle env candidates) ops) more).exhausted = true) := by
  have hinv := cursorInv_runOps env candidates (initHandle env candidates) ops
    (cursorInv_init env candidates h)
  constructor
  · intro hx
    rcases hinv with ⟨hx2, _⟩ | ⟨_, hi⟩
    · rw [hx] at hx2; cases hx2
    · exact hi
  · intro hx more
    exact exhausted_runOps env candidates _ more hinv hx

/-- C1, witness: the `intro_wave` chain (two candidates) after two failures
is exhausted with its cursor at 1. -/
theorem exhaustion_cursor_terminal_witness :
    (runOps none ["attract.webm", "attract.mp4"]
      (initHandle none ["attract.webm", "attract.mp4"])
      [VideoOp.errorEvent, VideoOp.errorEvent]).candidateIndex + 1 = 2 :=
  (exhaustion_cursor_terminal none ["attract.webm", "attract.mp4"]
    (by decide) [VideoOp.errorEvent, VideoOp.errorEvent]).1 (by decide)

/-- C1, counterexample to the claim as stated: drive the real pipeline for
`intro_wave` (2 candidates) through two load failures; the flag is set while
the cursor equals 1, not the candidate-list length 2 — the cursor never
reaches the length, so "`exhausted` iff `cursor == len(candidates)`" fails. -/
theorem exhaustion_cursor_counterexample :
    ((alookup (fireError none (fireError none
        (getOrCreateVideo none emptyWorld "intro_wave").1 "intro_wave")
        "intro_wave").cache "intro_wave").map
      (fun v => (v.exhausted, v.candidateIndex)) = some (true, 1)) ∧
    (getCandidates "intro_wave").length = 2 := by decide

/-! ## Claim C5: the failure transition of the fallback machine -/

/-- C5: in `Loading(i)`, a load-failure event moves the handle to
`Loading(i+1)` and begins loading candidate `i+1` (new `src`, one more
`load()`) when `i+1 < len(candidates)`, and otherwise to the terminal
`Exhausted`; and the concrete three-candidate chain where the first two
candidates fail and the third succeeds passes through
`Loading(0) → Loading(1) → Loading(2)` and ends `Ready` with cursor 2. -/
theorem loading_failure_transition :
    (∀ (env : Option String) (candidates : List String) (vid : Video) (i : Nat),
      status vid = HandleStatus.loading i →
      (i + 1 < candidates.length →
        status (videoOnError env candidates vid) = HandleStatus.loading (i + 1) ∧
        (videoOnError env candidates vid).src =
          buildAssetUrl env (candidates.getD (i + 1) "") ∧
        (videoOnError env candidates vid).loadCount = vid.loadCount + 1) ∧
      (candidates.length ≤ i + 1 →
        status (videoOnError env candidates vid) = HandleStatus.exhausted)) ∧
    (∀ (env : Option String) (a b c : String),
      status (initHandle env [a, b, c]) = HandleStatus.loading 0 ∧
      status (runOps env [a, b, c] (initHandle env [a, b, c])
        [VideoOp.errorEvent]) = HandleStatus.loading 1 ∧
      status (runOps env [a, b, c] (initHandle env [a, b, c])
        [VideoOp.errorEvent, VideoOp.errorEvent]) = HandleStatus.loading 2 ∧
      status (runOps env [a, b, c] (initHandle env [a, b, c])
        [VideoOp.errorEvent, VideoOp.errorEvent, VideoOp.loadedEvent]) =
        HandleStatus.ready ∧
      (runOps env [a, b, c] (initHandle env [a, b, c])
        [VideoOp.errorEvent, VideoOp.errorEvent, VideoOp.loadedEvent]).candidateIndex
        = 2) := by
  constructor
  · intro env candidates vid i h
    have hx : vid.exhausted = false ∧ vid.readyState < 3 ∧ vid.candidateIndex = i := by
      unfold status at h
      split_ifs at h with h1 h2
      cases h
      exact ⟨by simpa using h1, by omega, rfl⟩
    obtain ⟨hx, hr, hi⟩ := hx
    subst hi
    constructor
    · intro hlt
      have hn : ¬ candidates.length ≤ vid.candidateIndex + 1 := by omega
      refine ⟨?_, ?_, ?_⟩
      · simp [videoOnError, tryNextCandidate, loadCandidate, hn, status,
          Nat.not_le.mpr hr]
      · simp [videoOnError, tryNextCandidate, loadCandidate, hn]
      · simp [videoOnError, tryNextCandidate, loadCandidate, hn]
    · intro hge
      simp [videoOnError, tryNextCandidate, hge, status]
  · intro env a b c
    refine ⟨?_, ?_, ?_, ?_, ?_⟩
    · simp [initHandle, loadCandidate, status, freshVideo]
    · simp [initHandle, loadCandidate, status, freshVideo, runOps, applyOp,
        videoOnError, tryNextCandidate]
    · simp [initHandle, loadCandidate, status, freshVideo, runOps, applyOp,
        videoOnError, tryNextCandidate]
    · simp [initHandle, loadCandidate, status, freshVideo, runOps, applyOp,
        videoOnError, tryNextCandidate, videoOnLoaded]
    · simp [initHandle, loadCandidate, status, freshVideo, runOps, applyOp,
        videoOnError, tryNextCandidate, videoOnLoaded]

/-- C5, witness: concrete failure transition on the `idle` chain. -/
theorem loading_failure_transition_witness :
    status (videoOnError none (getCandidates "idle")
      (initHandle none (getCandidates "idle"))) = HandleStatus.loading 1 :=
  ((loading_failure_transition.1 none (getCandidates "idle")
    (initHandle none (getCandidates "idle")) 0 (by decide)).1 (by decide)).1

/-! ## Claim C6: `ensure` is idempotent -/

/-- C6: for a state with a nonempty candidate list, a second
`getOrCreateVideo` returns the same handle as the first and leaves the whole
world (cache, cursor, construction and load counters) unchanged. -/
theorem ensure_idempotent (env : Option String) (w : World) (s : String)
    (h : getCandidates s ≠ []) :
    (getOrCreateVideo env (getOrCreateVideo env w s).1 s).1 =
      (getOrCreateVideo env w s).1 ∧
    (getOrCreateVideo env (getOrCreateVideo env w s).1 s).2 =
      (getOrCreateVideo env w s).2 ∧
    ((getOrCreateVideo env w s).2).isSome = true := by
  cases hl : alookup w.cache s with
  | some v =>
      refine ⟨?_, ?_, ?_⟩ <;> simp [getOrCreateVideo, hl]
  | none =>
      have hne : (getCandidates s).isEmpty = false := by
        cases hc : getCandidates s with
        | nil => exact absurd hc h
        | cons x xs => rfl
      refine ⟨?_, ?_, ?_⟩ <;>
        simp [getOrCreateVideo, hl, hne, alookup_cons_self]

/-- C6, witness: the `idle` handle created from the empty world. -/
theorem ensure_idempotent_witness :
    (getOrCreateVideo none (getOrCreateVideo none emptyWorld "idle").1 "idle").1 =
      (getOrCreateVideo none emptyWorld "idle").1 ∧
    (getOrCreateVideo none (getOrCreateVideo none emptyWorld "idle").1 "idle").2 =
      (getOrCreateVideo none emptyWorld "idle").2 ∧
    ((getOrCreateVideo none emptyWorld "idle").2).isSome = true :=
  ensure_idempotent none emptyWorld "idle" (by decide)

/-! ## Claim C9: `getCandidates` as a pure total lookup -/

/-- C9: `getCandidates` is total; for an unregistered state it returns `[]`,
and for each registered state it returns the catalog's list in order with
duplicates removed keeping the first occurrence (`specDedupFirst`, written
from the spec's words). -/
theorem getCandidates_pure (s : String) :
    (TAYYIB_ASSETS s = none → getCandidates s = []) ∧
    (∀ l : List String, TAYYIB_ASSETS s = some l →
      getCandidates s = specDedupFirst l) := by
  constructor
  · intro h
    simp [getCandidates, h, dedupFilter]
  · intro l hl
    unfold TAYYIB_ASSETS at hl
    split_ifs at hl with h1 h2 h3 h4 h5 h6 h7 h8 h9
    · subst h1; injection hl with he; subst he; decide
    · subst h2; injection hl with he; subst he; decide
    · subst h3; injection hl with he; subst he; decide
    · subst h4; injection hl with he; subst he; decide
    · subst h5; injection hl with he; subst he; decide
    · subst h6; injection hl with he; subst he; decide
    · subst h7; injection hl with he; subst he; decide
    · subst h8; injection hl with he; subst he; decide
    · subst h9; injection hl with he; subst he; decide

/-- C9, witness: an unregistered state yields `[]`; the registered `idle`
state yields the deduplicated catalog list. -/
theorem getCandidates_pure_witness :
    getCandidates "zzz" = [] ∧
    getCandidates "idle" = specDedupFirst ["idle.webm", "idle.mp4", "Idle.mp4"] :=
  ⟨(getCandidates_pure "zzz").1 (by decide),
   (getCandidates_pure "idle").2 ["idle.webm", "idle.mp4", "Idle.mp4"] (by decide)⟩

/-! ## Claim C10: candidates are nonempty strings -/

theorem mem_dedupFilter_ne_empty :
    ∀ (raw seen : List String) (name : String),
      name ∈ dedupFilter raw seen → name ≠ "" := by
  intro raw
  induction raw with
  | nil => intro seen name h; cases h
  | cons x rest ih =>
      intro seen name h
      unfold dedupFilter at h
      split_ifs at h with hx
      · exact ih seen name h
      · rcases List.mem_cons.mp h with he | ht
        · subst he
          intro hne
          exact hx (Or.inl hne)
        · exact ih (x :: seen) name ht

theorem string_append_right_ne (a c : String) (hc : c ≠ "") : a ++ c ≠ a := by
  intro he
  apply hc
  have hlen : (a ++ c).length = a.length := by rw [he]
  rw [String.length_append] at hlen
  have hz : c.length = 0 := by omega
  cases c with
  | mk data =>
      cases data with
      | nil => rfl
      | cons x xs => simp [String.length] at hz

/-- C10 (implicit): every candidate `getCandidates` produces is a nonempty
string (falsy names are filtered out with the duplicates), and therefore a
successful `loadCandidate` never sets `src` to the bare base-path URL. -/
theorem candidates_nonempty_names :
    (∀ (s name : String), name ∈ getCandidates s → name ≠ "") ∧
    (∀ (env : Option String) (s : String) (vid : Video) (idx : Nat),
      (loadCandidate env vid (getCandidates s) idx).2 = true →
      (loadCandidate env vid (getCandidates s) idx).1.src ≠
        getTayyibBasePath env) := by
  constructor
  · intro s name h
    exact mem_dedupFilter_ne_empty _ [] name h
  · intro env s vid idx h
    by_cases hle : (getCandidates s).length ≤ idx
    · simp [loadCandidate, hle] at h
    · have hlt : idx < (getCandidates s).length := by omega
      have hmem : (getCandidates s).getD idx "" ∈ getCandidates s := by
        rw [List.getD_eq_getElem (getCandidates s) "" hlt]
        exact List.getElem_mem hlt
      have hne := mem_dedupFilter_ne_empty _ [] _ hmem
      simp only [loadCandidate, hle, if_false, buildAssetUrl]
      simpa using string_append_right_ne (getTayyibBasePath env) _ hne

/-- C10, witness: the first `idle` candidate is nonempty and its load URL is
not the bare base path. -/
theorem candidates_nonempty_names_witness :
    ("idle.webm" : String) ≠ "" ∧
    (loadCandidate none freshVideo (getCandidates "idle") 0).1.src ≠
      getTayyibBasePath none :=
  ⟨candidates_nonempty_names.1 "idle" "idle.webm" (by decide),
   candidates_nonempty_names.2 none "idle" freshVideo 0 (by decide)⟩

/-! ## Claim C7: empty candidate lists -/

/-- C7: for a state with an empty candidate list (in particular every
unregistered state) and no cached element, `getOrCreateVideo` returns no
handle and changes nothing — no element is created or cached, so no
`Loading` state is ever entered — and an attach from a mounted panel
reports `onError(state)` exactly once, with no other change to the world
(no subscription, no load). -/
theorem empty_candidates_reports (env : Option String) (o : AttachOpts)
    (w : World) (pid c : Nat) (p : PanelState) (s : String)
    (hcand : getCandidates s = []) (hmiss : alookup w.cache s = none)
    (hp : alookup w.panels pid = some p) (hc : p.container = some c) :
    getOrCreateVideo env w s = (w, none) ∧
    attachVideo env o w pid s = { w with errors := w.errors ++ [(pid, s)] } := by
  have h1 : getOrCreateVideo env w s = (w, none) := by
    simp [getOrCreateVideo, hmiss, hcand]
  exact ⟨h1, by simp [attachVideo, hp, hc, h1]⟩

/-- C7, witness: attaching the unregistered state `"menu"` from a mounted
panel reports the error and nothing else. -/
theorem empty_candidates_reports_witness :
    getOrCreateVideo none (withPanel emptyWorld 0 0) "menu" =
      (withPanel emptyWorld 0 0, none) ∧
    attachVideo none {} (withPanel emptyWorld 0 0) 0 "menu" =
      { (withPanel emptyWorld 0 0) with
          errors := (withPanel emptyWorld 0 0).errors ++ [(0, "menu")] } :=
  empty_candidates_reports none {} (withPanel emptyWorld 0 0) 0 0
    { container := some 0, activeVideo := none, ready := false } "menu"
    (by decide) (by decide) (by decide) rfl

/-! ## Claim C8: one-shot warmup -/

theorem ensure_preserves_preloaded (env : Option String) (w : World)
    (s : String) : ((getOrCreateVideo env w s).1).preloaded = w.preloaded := by
  cases hl : alookup w.cache s with
  | some v => simp [getOrCreateVideo, hl]
  | none =>
      cases h : (getCandidates s).isEmpty <;> simp [getOrCreateVideo, hl, h]

theorem foldl_ensure_preloaded (env : Option String) :
    ∀ (l : List String) (acc : World), acc.preloaded = true →
      (l.foldl (fun a s => (getOrCreateVideo env a s).1) acc).preloaded = true := by
  intro l
  induction l with
  | nil => intro acc h; exact h
  | cons x rest ih =>
      intro acc h
      simp only [List.foldl_cons]
      exact ih _ (by rw [ensure_preserves_preloaded]; exact h)

theorem preloadAll_preloaded (env : Option String) (w : World) :
    (preloadAll env w).preloaded = true := by
  cases h : w.preloaded with
  | true => simp [preloadAll, h]
  | false =>
      simp only [preloadAll, h, Bool.false_eq_true, if_false]
      exact foldl_ensure_preloaded env TAYYIB_STATES _ rfl

theorem preloadAll_noop (env : Option String) (w : World)
    (h : w.preloaded = true) : preloadAll env w = w := by
  simp [preloadAll, h]

/-- C8: any invocation of `preloadAll` after the first is a complete no-op
on the world, and from process start three invocations construct each of
the 9 states' handles exactly once (9 element constructions; the cache ends
with exactly one entry per state). -/
theorem warmup_constructs_once :
    (∀ (env : Option String) (w : World),
      preloadAll env (preloadAll env w) = preloadAll env w) ∧
    (preloadAll none (preloadAll none (preloadAll none emptyWorld))).constructions
      = 9 ∧
    (preloadAll none (preloadAll none (preloadAll none emptyWorld))).cache.map
      Prod.fst = TAYYIB_STATES.reverse := by
  refine ⟨?_, ?_, ?_⟩
  · intro env w
    exact preloadAll_noop env _ (preloadAll_preloaded env w)
  · decide
  · decide

/-! ## Claim C2: ownership-exclusive transfer between containers -/

/-- Two mounted panels (ids 0 and 1, containers `c0` and `c1`), neither yet
holding a video, and one cached element for state `s`. -/
def scenarioTwoPanels (s : String) (v : Video) (c0 c1 : Nat) : World :=
  { cache := [(s, v)], preloaded := true
    panels := [(0, { container := some c0, activeVideo := none, ready := false }),
               (1, { container := some c1, activeVideo := none, ready := false })]
    subs := [], errors := [], constructions := 1 }

/-- The transfer outcome: after the first attach the element sits in `c0`;
after the second it sits in `c1` (its single `parent` pointer makes `c1` the
sole owner) and is playing, no cached element is attached to `c0` any more
(so nothing plays in `c0`), and panel 1 records the element with `ready`. -/
def transferOutcome (w1 w2 : World) (s : String) (c0 c1 : Nat) : Prop :=
  (alookup w1.cache s).map Video.parent = some (some c0) ∧
  (alookup w2.cache s).map Video.parent = some (some c1) ∧
  (alookup w2.cache s).map Video.paused = some false ∧
  (alookup w2.cache s).map Video.exhausted = some false ∧
  (∀ (s2 : String) (u : Video), alookup w2.cache s2 = some u →
    u.parent ≠ some c0) ∧
  alookup w2.panels 1 =
    some { container := some c1, activeVideo := some s, ready := true }

/-- C2: attaching a Ready handle to container `X` and then to a distinct
container `Y` moves the single media element from `X` to `Y`: afterwards
nothing is attached to (hence nothing plays in) `X`, `Y` holds the element
as its sole owner, playback is requested on it, and `Y`'s panel is ready. -/
theorem attach_transfers_ownership (env : Option String) (o : AttachOpts)
    (s : String) (v : Video) (c0 c1 : Nat)
    (hx : v.exhausted = false) (hr : 3 ≤ v.readyState)
    (hp : v.parent = none) (hne : c0 ≠ c1) :
    transferOutcome
      (attachVideo env o (scenarioTwoPanels s v c0 c1) 0 s)
      (attachVideo env o
        (attachVideo env o (scenarioTwoPanels s v c0 c1) 0 s) 1 s)
      s c0 c1 := by
  unfold transferOutcome
  refine ⟨?_, ?_, ?_, ?_, ?_, ?_⟩
  · simp [attachVideo, scenarioTwoPanels, getOrCreateVideo, alookup, updAssoc,
      clearContainer, applyOpts, hx, hr, hp, hne]
  · simp [attachVideo, scenarioTwoPanels, getOrCreateVideo, alookup, updAssoc,
      clearContainer, applyOpts, hx, hr, hp, hne]
  · simp [attachVideo, scenarioTwoPanels, getOrCreateVideo, alookup, updAssoc,
      clearContainer, applyOpts, hx, hr, hp, hne]
  · simp [attachVideo, scenarioTwoPanels, getOrCreateVideo, alookup, updAssoc,
      clearContainer, applyOpts, hx, hr, hp, hne]
  · intro s2 u hu
    simp [attachVideo, scenarioTwoPanels, getOrCreateVideo, alookup, updAssoc,
      clearContainer, applyOpts, hx, hr, hp, hne] at hu
    by_cases hs : s = s2
    · simp [hs] at hu
      intro hpar
      rw [← hu] at hpar
      simp at hpar
      exact hne hpar.symm
    · simp [hs] at hu
  · simp [attachVideo, scenarioTwoPanels, getOrCreateVideo, alookup, updAssoc,
      clearContainer, applyOpts, hx, hr, hp, hne]

/-- A cached element whose load already succeeded (`readyState 4`). -/
def readyVideo : Video := { freshVideo with readyState := 4 }

/-- C2, witness: the transfer of a Ready `idle` element from container 0 to
container 1. -/
theorem attach_transfers_ownership_witness :
    transferOutcome
      (attachVideo none {} (scenarioTwoPanels "idle" readyVideo 0 1) 0 "idle")
      (attachVideo none {}
        (attachVideo none {} (scenarioTwoPanels "idle" readyVideo 0 1) 0 "idle")
        1 "idle")
      "idle" 0 1 :=
  attach_transfers_ownership none {} "idle" readyVideo 0 1 rfl (by decide)
    rfl (by decide)

/-! ## Claim C3: attaching an exhausted handle -/

/-- One mounted panel (id 0, container `c`, `activeVideoRef` = `a`) and one
cached element for state `s`. -/
def scenarioOnePanel (s : String) (v : Video) (c : Nat) (a : Option String)
    (r : Bool) : World :=
  { cache := [(s, v)], preloaded := true
    panels := [(0, { container := some c, activeVideo := a, ready := r })]
    subs := [], errors := [], constructions := 1 }

/-- Outcome of an attach that reaches the exhausted check through the
transfer path: exactly one `onError(state)`, no subscription, playback not
requested, no candidate load (the element's load state is untouched), panel
not ready. -/
def exhaustedAttachOutcome (w0 w2 : World) (s : String) (v : Video) : Prop :=
  w2.errors = w0.errors ++ [(0, s)] ∧
  w2.subs = w0.subs ∧
  (alookup w2.cache s).map Video.exhausted = some true ∧
  (alookup w2.cache s).map Video.loadCount = some v.loadCount ∧
  (alookup w2.cache s).map Video.src = some v.src ∧
  (alookup w2.cache s).map Video.candidateIndex = some v.candidateIndex ∧
  (alookup w2.cache s).map Video.paused = some v.paused ∧
  (alookup w2.panels 0).map PanelState.ready = some false

/-- C3 (amended): when the handle is already exhausted at attach time, the
behavior depends on whether the panel already holds this element.  Through
the transfer path (`activeVideoRef.current` differs) the attach invokes
`onError(state)` exactly once, requests no playback and starts no load —
and this repeats on every such attach.  But when the panel already holds
the exhausted element, the attach takes the early restyle branch: it
requests playback (`play()`), invokes no `onError`, subscribes nothing and
starts no load. -/
theorem exhausted_attach_behavior (env : Option String) (o : AttachOpts)
    (s : String) (v : Video) (c : Nat) (a : Option String) (r : Bool)
    (hx : v.exhausted = true) :
    (a ≠ some s →
      exhaustedAttachOutcome (scenarioOnePanel s v c a r)
        (attachVideo env o (scenarioOnePanel s v c a r) 0 s) s v) ∧
    (a = some s →
      (attachVideo env o (scenarioOnePanel s v c a r) 0 s).errors =
        (scenarioOnePanel s v c a r).errors ∧
      (attachVideo env o (scenarioOnePanel s v c a r) 0 s).subs = [] ∧
      (alookup (attachVideo env o (scenarioOnePanel s v c a r) 0 s).cache s).map
        Video.paused = some false ∧
      (alookup (attachVideo env o (scenarioOnePanel s v c a r) 0 s).cache s).map
        Video.loadCount = some v.loadCount) := by
  constructor
  · intro ha
    unfold exhaustedAttachOutcome
    cases a with
    | none =>
        by_cases hvp : v.parent = some c <;>
          refine ⟨?_, ?_, ?_, ?_, ?_, ?_, ?_, ?_⟩ <;>
            simp [attachVideo, scenarioOnePanel, getOrCreateVideo, alookup,
              updAssoc, clearContainer, applyOpts, hx, hvp]
    | some s1 =>
        have hs1 : ¬ s1 = s := fun he => ha (by rw [he])
        have hs1b : ¬ s = s1 := fun he => hs1 he.symm
        by_cases hvp : v.parent = some c <;>
          refine ⟨?_, ?_, ?_, ?_, ?_, ?_, ?_, ?_⟩ <;>
            simp [attachVideo, scenarioOnePanel, getOrCreateVideo, alookup,
              updAssoc, clearContainer, applyOpts, hx, hvp, hs1, hs1b]
  · intro ha
    subst ha
    refine ⟨?_, ?_, ?_, ?_⟩ <;>
      simp [attachVideo, scenarioOnePanel, getOrCreateVideo, alookup,
        updAssoc, applyOpts]

/-- An element whose candidate chain is spent. -/
def exhaustedVideo : Video := { freshVideo with exhausted := true }

/-- C3, witness: a fresh panel attaching the exhausted `idle` element gets
exactly one `onError` and no playback. -/
theorem exhausted_attach_behavior_witness :
    exhaustedAttachOutcome (scenarioOnePanel "idle" exhaustedVideo 5 none false)
      (attachVideo none {} (scenarioOnePanel "idle" exhaustedVideo 5 none false)
        0 "idle")
      "idle" exhaustedVideo :=
  (exhausted_attach_behavior none {} "idle" exhaustedVideo 5 none false
    rfl).1 (by decide)

/-- C3, counterexample to the claim as stated: drive `intro_wave` to
exhaustion under a mounted panel (one `onError` fires), then attach again
from the same panel — which now owns the handle.  The claim says this attach
skips playback and invokes `onError(state)` exactly once; instead the early
branch requests playback (`paused = false`) and invokes no `onError` at all
(the error log still has length 1). -/
theorem exhausted_attach_counterexample :
    (let wa := attachVideo none {} (withPanel emptyWorld 0 7) 0 "intro_wave"
     let wc := fireError none (fireError none wa "intro_wave") "intro_wave"
     let wd := attachVideo none {} wc 0 "intro_wave"
     (alookup wd.cache "intro_wave").map Video.exhausted = some true ∧
     wc.errors = [(0, "intro_wave")] ∧
     wd.errors = [(0, "intro_wave")] ∧
     (alookup wd.cache "intro_wave").map Video.paused = some false) := by
  decide

/-! ## Claim C4: switching state before the handle is Ready -/

/-- A panel (id 0, container `c`) currently attached to `s1`'s element and
subscribed to it (it attached while the element was still loading); both
`s1`'s and `s2`'s elements are cached. -/
def scenarioSwitch (s1 s2 : String) (v1 v2 : Video) (c : Nat) : World :=
  { cache := [(s1, v1), (s2, v2)], preloaded := true
    panels := [(0, { container := some c, activeVideo := some s1, ready := false })]
    subs := [(0, s1)], errors := [], constructions := 2 }

/-- Outcome of switching the panel to `s2` (amended): `s1`'s element keeps
its load state and stays pooled (the in-flight load is not cancelled); the
panel's subscription on `s1` is NOT torn down — it survives next to the new
`s2` subscription; it removes itself only when it first fires, and that
firing still acts on the panel: it sets `ready` although the panel now shows
`s2`. -/
def switchOutcome (w2 : World) (s1 s2 : String) (v1 : Video) (c : Nat) : Prop :=
  (alookup w2.cache s1).map Video.candidateIndex = some v1.candidateIndex ∧
  (alookup w2.cache s1).map Video.src = some v1.src ∧
  (alookup w2.cache s1).map Video.exhausted = some false ∧
  (alookup w2.cache s1).map Video.loadCount = some v1.loadCount ∧
  (0, s1) ∈ w2.subs ∧
  (0, s2) ∈ w2.subs ∧
  (∀ q : Nat, (q, s1) ∉ (fireLoaded w2 s1).subs) ∧
  alookup (fireLoaded w2 s1).panels 0 =
    some { container := some c, activeVideo := some s2, ready := true }

/-- C4 (amended): switching the panel from loading `s1` to loading `s2`
leaves `s1`'s in-flight load untouched and pooled, does NOT tear down the
panel's subscription on `s1`, and that subscription self-removes at its
first firing — acting on the panel one last time (setting `ready` while the
panel displays `s2`). -/
theorem switch_keeps_loading (env : Option String) (o : AttachOpts)
    (s1 s2 : String) (v1 v2 : Video) (c : Nat)
    (hne : s1 ≠ s2) (h1x : v1.exhausted = false) (h1r : v1.readyState < 3)
    (h1p : v1.parent = some c) (h2x : v2.exhausted = false)
    (h2r : v2.readyState < 3) (h2p : v2.parent = none) :
    switchOutcome (attachVideo env o (scenarioSwitch s1 s2 v1 v2 c) 0 s2)
      s1 s2 v1 c := by
  have hne2 : ¬ s2 = s1 := fun he => hne he.symm
  have h2r2 : ¬ 3 ≤ v2.readyState := Nat.not_le.mpr h2r
  unfold switchOutcome
  refine ⟨?_, ?_, ?_, ?_, ?_, ?_, ?_, ?_⟩ <;>
    simp [attachVideo, scenarioSwitch, getOrCreateVideo, alookup, updAssoc,
      clearContainer, applyOpts, fireLoaded, h1x, h1p, h2x, h2r2, h2p,
      hne, hne2]

/-- An element still loading inside container 3. -/
def attachedLoadingVideo : Video := { freshVideo with parent := some 3 }

/-- C4, witness: switching a panel from the loading `idle` element to
`searching`. -/
theorem switch_keeps_loading_witness :
    switchOutcome
      (attachVideo none {}
        (scenarioSwitch "idle" "searching" attachedLoadingVideo freshVideo 3)
        0 "searching")
      "idle" "searching" attachedLoadingVideo 3 :=
  switch_keeps_loading none {} "idle" "searching" attachedLoadingVideo
    freshVideo 3 (by decide) rfl (by decide) rfl rfl (by decide) rfl

/-- C4, counterexample to the claim as stated: mount a panel, attach `idle`
(still loading, so the panel subscribes), then switch to `searching` before
`idle` is Ready.  The claim says the panel's subscription on the old handle
is torn down and a stale callback never acts on the panel; instead the
subscription `(0, "idle")` is still live after the switch, and when `idle`
later fires `loadeddata` the stale callback sets the panel `ready` even
though the panel now shows `searching`. -/
theorem switch_teardown_counterexample :
    (let wa := attachVideo none {} (withPanel emptyWorld 0 3) 0 "idle"
     let wb := attachVideo none {} wa 0 "searching"
     let wc := fireLoaded wb "idle"
     (0, "idle") ∈ wb.subs ∧
     alookup wc.panels 0 =
       some { container := some 3, activeVideo := some "searching", ready := true }) := by
  decide
